import Mathlib

/-!
# Verification of the beatbully real-time audio analysis and sample-triggering engine

Shallow embedding of `src/audioUtils.ts`: the spectral feature extractor
(`AudioContextAnalyzer`), the streaming buffer aggregator
(`ContextAwareLyriaSession`), the compatibility scorer and trigger scheduler
(`SmartSampleTrigger`), and the playback entry point (`AudioMixer.playSample`).

Modelling conventions:
* JavaScript numbers are modelled as `ℚ`.  All arithmetic used by the claims
  (`+ - * /`, `abs`, `min`, `max`, comparisons) is exact on the literals
  involved, and every compared quantity is far from the thresholds, so the
  rational model is decision-faithful.
* The irrational library calls `Math.pow(10, x)`, `Math.sqrt` and the
  `Math.round(69 + 12*log2(f/440))` bin-to-pitch-class map are not rational;
  they are threaded as explicit function parameters (`pow10`, `sqrtQ`,
  `binPitchClass`).  No claim depends on their values beyond positivity of
  `pow10`, which is an explicit hypothesis where used.
* `Date.now()` is passed explicitly as a `now : Nat` argument.
* JavaScript `Map<string, number>` is an association list updated in place.
* Fallible play calls are modelled with `Except`.
-/

/-! ## String helpers (JS string semantics) -/

/-- JS `String.prototype.replace(pat, repl)` with a plain-string pattern:
replaces only the first occurrence. Operates on character lists. -/
def listReplaceFirst (pat repl : List Char) : List Char → List Char
  | [] => []
  | c :: rest =>
    if pat.isPrefixOf (c :: rest) then repl ++ (c :: rest).drop pat.length
    else c :: listReplaceFirst pat repl rest

/-- JS `String.prototype.replace(/pat/g, repl)` for a two-character pattern
(every `/g` pattern in `getPitchClass` has exactly two characters): replaces
all non-overlapping occurrences, scanning left to right. -/
def listReplaceAll2 (p1 p2 : Char) (repl : List Char) : List Char → List Char
  | [] => []
  | [c] => [c]
  | c1 :: c2 :: rest =>
    if c1 = p1 ∧ c2 = p2 then repl ++ listReplaceAll2 p1 p2 repl rest
    else c1 :: listReplaceAll2 p1 p2 repl (c2 :: rest)

/-- JS `String.prototype.includes(pat)`: substring test. -/
def listIncludes (pat : List Char) : List Char → Bool
  | [] => pat.isEmpty
  | c :: rest => pat.isPrefixOf (c :: rest) || listIncludes pat rest

/-- JS `a.toLowerCase() === b.toLowerCase()` on strings. -/
def lowerEq (a b : String) : Bool :=
  a.toList.map Char.toLower = b.toList.map Char.toLower

/-! ## Scorer data model (`src/audioUtils.ts` interfaces) -/

/-- `SampleAnalysis` (fields used by the trigger engine; the purely
informational analysis fields are omitted as no modelled operation reads
them). -/
structure SampleAnalysis where
  sampleType : Option String
  key : Option String
  scale : Option String
  energyLevel : Option ℚ
  grooveDescription : Option String
  minimumIntervalMs : Option Nat
  moodTags : Option (List String)
  suggestedHipHopUses : Option (List String)
deriving DecidableEq, Repr

/-- `UserSample` (decoded audio payload elided; only identity and metadata
are read by the modelled trigger logic). -/
structure UserSample where
  id : String
  name : String
  metadata : SampleAnalysis
deriving DecidableEq, Repr

/-- `MusicalContext`. -/
structure MusicalContext where
  timestamp : Nat
  beatDensity : Option ℚ
  onsets : Option (List Bool)
  key : Option String
  scale : Option String
  energy : Option ℚ
  dominantFrequencies : Option (List ℚ)
deriving DecidableEq, Repr

/-- `PlaybackConfig` as produced by `calculatePlaybackConfig` (always sets
`volume` and `pitchShift`, never `timingOffset`). -/
structure PlaybackConfig where
  volume : ℚ
  pitchShift : Int
deriving DecidableEq, Repr

/-- `PITCH_CLASS_NAMES` from `audioUtils.ts` (the source writes the twelve
names in one array literal, C through B). -/
def PITCH_CLASS_NAMES : List String :=
  ["C", "C#", "D", "D#", "E", "F"] ++ ["F#", "G", "G#", "A", "A#", "B"]

def NUM_CHROMA_BINS : Nat := 12

/-! ## SmartSampleTrigger.getPitchClass -/

/-- The chained `.replace` normalisation step of `getPitchClass`
(`"SHARP"`/`"FLAT"` are first-occurrence plain-string replaces, the
enharmonic two-letter patterns are `/g` regex replaces). -/
def normalizeKeyChars (s : List Char) : List Char :=
  listReplaceAll2 'C' 'B' ['B'] <|
  listReplaceAll2 'B' 'B' ['A','#'] <|
  listReplaceAll2 'A' 'B' ['G','#'] <|
  listReplaceAll2 'G' 'B' ['F','#'] <|
  listReplaceAll2 'F' 'B' ['E'] <|
  listReplaceAll2 'E' 'B' ['D','#'] <|
  listReplaceAll2 'D' 'B' ['C','#'] <|
  listReplaceFirst ['F','L','A','T'] ['B'] <|
  listReplaceFirst ['S','H','A','R','P'] ['#'] s

/-- `SmartSampleTrigger.getPitchClass` (audioUtils.ts:439-481).  Returns the
pitch-class index `0..11` or `none`.  The JS guard `if (!keyName)` treats both
`undefined` and the empty string as absent. -/
def getPitchClass (keyName : Option String) : Option Nat :=
  match keyName with
  | none => none
  | some kn =>
    if kn = "" then none
    else
      let upper := kn.toList.map Char.toUpper
      let normalized0 :=
        if upper.length = 2 ∧ upper.getLast? = some 'S' then
          upper.take 1 ++ ['#']
        else if upper.length = 3 ∧ upper.getLast? = some 'S' ∧ upper.get? 1 = some '#' then
          upper.take 1 ++ ['#','#']
        else upper
      let normalized := normalizeKeyChars normalized0
      let names := PITCH_CLASS_NAMES.map String.toList
      let pcIndex := names.indexOf normalized
      if pcIndex < names.length then some pcIndex
      else
        if normalized.getLast? = some 'B' ∧ normalized.length = 2 then
          let noteWithoutFlat := normalized.take 1
          let originalNoteIndex := names.indexOf noteWithoutFlat
          if originalNoteIndex < names.length then
            some ((originalNoteIndex - 1 + NUM_CHROMA_BINS) % NUM_CHROMA_BINS)
          else none
        else none

/-- `SmartSampleTrigger.getSemitoneDifference` (audioUtils.ts:483-488):
two sequential conditional adjustments, wrapping into `[-6, 6]`. -/
def getSemitoneDifference (pc1 pc2 : Int) : Int :=
  let diff := pc2 - pc1
  let diff := if diff > 6 then diff - 12 else diff
  if diff < -6 then diff + 12 else diff

/-- Result record of `calculateKeyCompatibility`. -/
structure KeyCompat where
  score : ℚ
  pitchShiftSemitones : Int
deriving DecidableEq, Repr

/-- `SmartSampleTrigger.calculateKeyCompatibility` (audioUtils.ts:491-514). -/
def calculateKeyCompatibility (contextKey contextScale sampleKey sampleScale : Option String) :
    KeyCompat :=
  match contextKey, sampleKey, contextScale, sampleScale with
  | some ck, some sk, some cs, some ss =>
    if ck = "" ∨ sk = "" ∨ cs = "" ∨ ss = "" then ⟨1/2, 0⟩
    else
      let contextPitchClass := getPitchClass (some ck)
      let samplePitchClass := getPitchClass (some sk)
      let pitchShiftSemitones : Int :=
        match contextPitchClass, samplePitchClass with
        | some cpc, some spc => getSemitoneDifference (spc : Int) (cpc : Int)
        | _, _ => 0
      let shiftedSamplePitchClass : Option Int :=
        samplePitchClass.map (fun spc : Nat => ((spc : Int) + pitchShiftSemitones + 12) % 12)
      let score : ℚ :=
        match contextPitchClass, shiftedSamplePitchClass with
        | some cpc, some sspc =>
          if (cpc : Int) = sspc then (if lowerEq cs ss then 1 else 4/5)
          else if lowerEq cs ss then 7/10
          else 1/2
        | _, _ => if lowerEq cs ss then 7/10 else 3/10
      ⟨score, pitchShiftSemitones⟩
  | _, _, _, _ => ⟨1/2, 0⟩

/-- `SmartSampleTrigger.calculateEnergyMatch` (audioUtils.ts:516-521). -/
def calculateEnergyMatch (contextEnergy sampleEnergy : Option ℚ) : ℚ :=
  match contextEnergy, sampleEnergy with
  | some ce, some se =>
    let normalizedSampleEnergy := (se - 1) / 9
    let diff := |ce - normalizedSampleEnergy|
    max 0 (1 - diff * (3/2))
  | _, _ => 1/2

/-- `SmartSampleTrigger.calculateRhythmicFit` (audioUtils.ts:523-540). -/
def calculateRhythmicFit (contextDensity : Option ℚ) (sampleGrooveDesc : Option String) : ℚ :=
  match contextDensity with
  | none => 1/2
  | some d =>
    let score : ℚ :=
      match sampleGrooveDesc with
      | some g =>
        if g = "" then 1/2 - |d - 1/2|  -- JS: empty string is falsy, takes else-branch
        else
          let desc := g.toList.map Char.toLower
          if listIncludes "sparse".toList desc ∨ listIncludes "minimal".toList desc ∨
              listIncludes "ambient".toList desc then
            (1 - d) * (4/5) + 1/10
          else if listIncludes "dense".toList desc ∨ listIncludes "complex".toList desc ∨
              listIncludes "active".toList desc ∨ listIncludes "driving".toList desc then
            d * (4/5) + 1/10
          else if listIncludes "percussive".toList desc ∨ listIncludes "rhythmic".toList desc then
            3/5 + d * (1/5)
          else 1/2
      | none => 1/2 - |d - 1/2|
    max 0 (min 1 score)

/-! ## SmartSampleTrigger: rate limiting and trigger decision -/

/-- JS `Map.prototype.get` on the `lastTriggerTimes : Map<string, number>`. -/
def mapGet (k : String) : List (String × Nat) → Option Nat
  | [] => none
  | (k', v) :: rest => if k' = k then some v else mapGet k rest

/-- JS `Map.prototype.set`: replaces the value of an existing key in place,
otherwise appends (insertion order preserved). -/
def mapSet (k : String) (v : Nat) : List (String × Nat) → List (String × Nat)
  | [] => [(k, v)]
  | (k', v') :: rest => if k' = k then (k, v) :: rest else (k', v') :: mapSet k v rest

/-- Result of `shouldTriggerSample`. -/
structure TriggerDecision where
  trigger : Bool
  pitchShift : Int
deriving DecidableEq, Repr

/-- The combined score computed at audioUtils.ts:555-559:
`keyScore*0.4 + energyScore*0.3 + rhythmScore*0.3`. -/
def totalScore (sample : UserSample) (context : MusicalContext) : ℚ :=
  let keyCompat := calculateKeyCompatibility context.key context.scale
    sample.metadata.key sample.metadata.scale
  let energyCompat := calculateEnergyMatch context.energy sample.metadata.energyLevel
  let rhythmCompat := calculateRhythmicFit context.beatDensity sample.metadata.grooveDescription
  keyCompat.score * (2/5) + energyCompat * (3/10) + rhythmCompat * (3/10)

/-- `SmartSampleTrigger.shouldTriggerSample` (audioUtils.ts:542-562).
`now` stands for `Date.now()` at decision time; `lastTriggerTimes` is the
rate-limit map.  The elapsed-time test `Date.now() - lastTriggerTime <
minInterval` is computed in `ℤ` as in JS. -/
def shouldTriggerSample (sample : UserSample) (context : MusicalContext)
    (lastTriggerTimes : List (String × Nat)) (now : Nat) : TriggerDecision :=
  if sample.metadata.sampleType ≠ some "one-shot" ∧ sample.metadata.sampleType ≠ some "fx" then
    ⟨false, 0⟩
  else
    let minInterval := sample.metadata.minimumIntervalMs.getD 3000
    let lastTriggerTime := (mapGet sample.id lastTriggerTimes).getD 0
    if (now : Int) - (lastTriggerTime : Int) < (minInterval : Int) then ⟨false, 0⟩
    else
      let keyCompat := calculateKeyCompatibility context.key context.scale
        sample.metadata.key sample.metadata.scale
      ⟨decide (totalScore sample context > 7/10), keyCompat.pitchShiftSemitones⟩

/-- `SmartSampleTrigger.calculatePlaybackConfig` (audioUtils.ts:564-584). -/
def calculatePlaybackConfig (sample : UserSample) (context : MusicalContext)
    (pitchShiftSemitones : Int) : PlaybackConfig :=
  let volume : ℚ :=
    if (sample.metadata.suggestedHipHopUses.getD []).contains "background" ∨
        (sample.metadata.moodTags.getD []).contains "ambient" then 2/5 else 7/10
  let volume :=
    match context.energy with
    | some e => if e < 3/10 then volume * (7/10) else if e > 7/10 then volume * (11/10) else volume
    | none => volume
  let volume := max (1/10) (min 1 volume)
  ⟨volume, pitchShiftSemitones⟩

/-- Error raised by a rejecting Playback Sink `play` call. -/
inductive PlayError where
  | fail : PlayError
deriving DecidableEq, Repr

/-- Outcome of the trigger loop of `evaluateAndTrigger`: the samples actually
played (with their playback configs, in firing order), the updated
`lastTriggerTimes` map, and the error of a rejected play call, if any. -/
structure TriggerCycleResult where
  played : List (UserSample × PlaybackConfig)
  lastTriggerTimes : List (String × Nat)
  error : Option PlayError
deriving DecidableEq, Repr

/-- The second loop of `evaluateAndTrigger` (audioUtils.ts:595-600): for each
fired sample, derive the playback config, `await playSample`, then record the
firing time.  The `await` is not wrapped in any try/catch, so a rejecting
`play` aborts the loop: the timestamp of the failing sample is not recorded
and later samples are not processed. -/
def runFirings (play : UserSample → PlaybackConfig → Except PlayError Unit)
    (context : MusicalContext) (now : Nat) :
    List (UserSample × Int) → List (String × Nat) → TriggerCycleResult
  | [], m => ⟨[], m, none⟩
  | (sample, pitchShift) :: rest, m =>
    let playbackConfig := calculatePlaybackConfig sample context pitchShift
    match play sample playbackConfig with
    | Except.error e => ⟨[], m, some e⟩
    | Except.ok _ =>
      let m' := mapSet sample.id now m
      let r := runFirings play context now rest m'
      ⟨(sample, playbackConfig) :: r.played, r.lastTriggerTimes, r.error⟩

/-- The first loop of `evaluateAndTrigger` (audioUtils.ts:587-593): collect
the samples whose trigger decision is positive, with their pitch shifts.
All decisions use the rate-limit map as it stood at the start of the cycle
(the map is only mutated in the second loop). -/
def collectEligible (samples : List UserSample) (context : MusicalContext)
    (lastTriggerTimes : List (String × Nat)) (now : Nat) : List (UserSample × Int) :=
  samples.filterMap (fun sample =>
    let d := shouldTriggerSample sample context lastTriggerTimes now
    if d.trigger then some (sample, d.pitchShift) else none)

/-- `SmartSampleTrigger.evaluateAndTrigger` (audioUtils.ts:586-601). -/
def evaluateAndTrigger (play : UserSample → PlaybackConfig → Except PlayError Unit)
    (samples : List UserSample) (lastTriggerTimes : List (String × Nat))
    (context : MusicalContext) (now : Nat) : TriggerCycleResult :=
  runFirings play context now (collectEligible samples context lastTriggerTimes now)
    lastTriggerTimes

/-- `AudioMixer.playSample` (audioUtils.ts:95-117), at the granularity the
claims need: when the sample has no decoded buffer it attempts to decode, and
a decode failure is caught inside the function (logged via `console.warn`)
and resolves normally without playing.  Only the surrounding Web Audio calls
can make the returned promise reject, which is abstracted by the
`webAudioOk` flag. -/
def playSample (hasBuffer decodeOk webAudioOk : Bool) : Except PlayError Bool :=
  if ¬hasBuffer ∧ ¬decodeOk then Except.ok false  -- decode failed: warn and return
  else if webAudioOk then Except.ok true
  else Except.error PlayError.fail

/-! ## AudioContextAnalyzer -/

/-- A reference to an external `AudioBuffer` (PCM payload elided: the
modelled operations read only its length-derived data; the spectra an
`AnalyserNode` would report on it are carried in `AnalyzerState`). -/
structure AudioBufferRef where
  length : Nat
  numberOfChannels : Nat
  sampleRate : ℚ
deriving DecidableEq, Repr

/-- The analyser-visible state of one `AudioContextAnalyzer` instance:
the current byte and float (dB) frequency measurements the `AnalyserNode`
reports, the previous linear spectrum kept for spectral flux, and the flux
history ring.  `sampleRate` is the audio context's rate. -/
structure AnalyzerState where
  sampleRate : ℚ
  frequencyData : List Nat
  floatFrequencyData : List ℚ
  prevSpectrum : List ℚ
  spectralFluxHistory : List ℚ
deriving DecidableEq, Repr

def FLUX_HISTORY_SIZE : Nat := 30

/-- `AudioContextAnalyzer.calculateEnergy` (audioUtils.ts:167-175): mean byte
magnitude over all bins, normalised by 128, clamped above by 1. -/
def calculateEnergy (st : AnalyzerState) : ℚ :=
  let sum : ℚ := (st.frequencyData.map (fun b : Nat => (b : ℚ))).sum
  let average := sum / (st.frequencyData.length : ℚ)
  min (average / 128) 1

/-- Stable insertion (descending by amplitude) used to model the stable JS
`Array.prototype.sort((a, b) => b.amp - a.amp)`. -/
def insertPeak (p : ℚ × Nat) : List (ℚ × Nat) → List (ℚ × Nat)
  | [] => [p]
  | q :: rest => if q.2 ≥ p.2 then q :: insertPeak p rest else p :: q :: rest

def sortPeaksDesc (l : List (ℚ × Nat)) : List (ℚ × Nat) :=
  l.foldl (fun acc p => insertPeak p acc) []

/-- `AudioContextAnalyzer.getFrequencySpectrum` (audioUtils.ts:154-165):
bins with byte magnitude above 128, sorted descending by amplitude, top 5,
mapped to Hz via `i * sampleRate / fftSize`. -/
def getFrequencySpectrum (st : AnalyzerState) : List ℚ :=
  let binWidth := st.sampleRate / 2048
  let peaks := (st.frequencyData.enum.filter (fun p => 128 < p.2)).map
    (fun p => ((p.1 : ℚ) * binWidth, p.2))
  ((sortPeaksDesc peaks).take 5).map Prod.fst

/-- The dB-to-linear bin map at audioUtils.ts:181-183:
`v < -100 ? 0 : 10^(v/20)`, with the irrational `Math.pow(10, ·)` abstracted
as the parameter `pow10`. -/
def dbToLinear (pow10 : ℚ → ℚ) (v : ℚ) : ℚ :=
  if v < -100 then 0 else pow10 (v / 20)

/-- Rectified spectral flux (audioUtils.ts:185-191): positive frame-to-frame
differences only.  Both spectra have `frequencyBinCount` entries in the
source; `zipWith` matches the index-bounded loop. -/
def spectralFluxOf (current prev : List ℚ) : ℚ :=
  (List.zipWith (fun c p => if c - p > 0 then c - p else 0) current prev).sum

/-- Result of `detectOnsetsAndDensity`. -/
structure OnsetInfo where
  onsets : List Bool
  beatDensity : ℚ
deriving DecidableEq, Repr

/-- `AudioContextAnalyzer.detectOnsetsAndDensity` (audioUtils.ts:177-222).
`sqrtQ` abstracts the irrational `Math.sqrt`.  In the `ℚ` model there is no
NaN; the source's `isNaN(beatDensity) ? 0 : beatDensity` coercion is
subsumed by the explicit zero-denominator branch, which mirrors the
source's `beatDensityDenominator === 0 ? 0 : ...` check. -/
def detectOnsetsAndDensity (pow10 sqrtQ : ℚ → ℚ) (st : AnalyzerState) :
    OnsetInfo × AnalyzerState :=
  let currentSpectrum := st.floatFrequencyData.map (dbToLinear pow10)
  let spectralFlux := spectralFluxOf currentSpectrum st.prevSpectrum
  let st1 := { st with prevSpectrum := currentSpectrum }
  let history0 := st1.spectralFluxHistory ++ [spectralFlux]
  let history := if history0.length > FLUX_HISTORY_SIZE then history0.drop 1 else history0
  let st2 := { st1 with spectralFluxHistory := history }
  if history.length = 0 then (⟨[false], 0⟩, st2)
  else
    let meanFlux := history.sum / (history.length : ℚ)
    let variance := (history.map (fun flux => (flux - meanFlux) ^ 2)).sum
    let variance := if history.length > 0 then variance / (history.length : ℚ) else 0
    let stdDevFlux := sqrtQ variance
    let fluxThreshold := meanFlux + stdDevFlux * (3/2)
    let onsetDetected := decide (spectralFlux > fluxThreshold ∧ spectralFlux > 1/100)
    let beatDensityDenominator := meanFlux + 1/1000000
    let rawDensity :=
      if beatDensityDenominator = 0 then 0
      else (spectralFlux / beatDensityDenominator - 1) / 5
    let beatDensity := min 1 (max 0 rawDensity)
    (⟨[onsetDetected], beatDensity⟩, st2)

/-- `KEY_TEMPLATES` from audioUtils.ts (iteration order preserved:
`Major` before `Minor`, keys in declaration order). -/
def KEY_TEMPLATES : List (String × List (String × List ℚ)) :=
  [("Major",
    [("C", [1,0,1,0,1,1,0,1,0,1,0,1]), ("G", [1,0,1,0,1,0,1,1,0,1,0,1]),
     ("D", [1,0,1,0,1,0,1,0,1,1,0,1]), ("A", [1,0,1,1,0,1,0,1,0,1,0,1]),
     ("E", [1,0,1,0,1,1,0,1,0,1,1,0]), ("B", [0,1,0,1,1,0,1,0,1,0,1,1]),
     ("Gb", [0,1,0,1,1,0,1,0,1,1,0,1]), ("Db", [1,0,1,1,0,1,0,1,0,1,1,0]),
     ("Ab", [1,1,0,1,0,1,1,0,1,0,1,0]), ("Eb", [0,1,1,0,1,1,0,1,0,1,0,1]),
     ("Bb", [1,0,1,0,1,1,0,1,1,0,1,0]), ("F", [1,0,1,0,1,1,1,0,1,0,1,0])]),
   ("Minor",
    [("A", [1,0,1,1,0,1,0,1,1,0,0,1]), ("E", [1,0,1,0,1,1,0,1,0,1,0,1]),
     ("B", [1,0,1,0,1,0,1,1,0,1,0,1]), ("F#", [1,1,0,1,0,1,0,1,1,0,1,0]),
     ("C#", [0,1,1,0,1,0,1,0,1,1,0,1]), ("G#", [1,0,1,1,0,1,0,1,0,1,1,0]),
     ("D#", [0,1,0,1,1,0,1,1,0,1,0,1]), ("A#", [1,1,0,1,0,1,1,0,1,0,1,0]),
     ("D", [1,0,1,1,0,1,0,1,0,1,0,1]), ("G", [1,0,1,0,1,1,0,1,1,0,0,1]),
     ("C", [1,1,0,1,1,0,1,0,1,0,0,1]), ("F", [1,0,1,1,0,1,1,0,1,0,1,0])])]

/-- The chroma accumulation loop of `estimateKeyFromChroma`
(audioUtils.ts:229-238).  `binPitchClass` abstracts the irrational
`Math.round(69 + 12*log2(freq/440))`; JS `%` is truncating (`Int.tmod`),
hence the sign guard from the source. -/
def chromaAccum (binPitchClass : ℚ → Int) (binWidth : ℚ) (data : List (Nat × Nat)) : List ℚ :=
  data.foldl (fun chroma p =>
    let freq := (p.1 : ℚ) * binWidth
    if freq = 0 then chroma
    else
      let pitchClass := (binPitchClass freq).tmod (NUM_CHROMA_BINS : Int)
      if 0 ≤ pitchClass ∧ pitchClass < (NUM_CHROMA_BINS : Int) then
        chroma.set pitchClass.toNat ((chroma.getD pitchClass.toNat 0) + (p.2 : ℚ))
      else chroma)
    (List.replicate NUM_CHROMA_BINS 0)

/-- `AudioContextAnalyzer.estimateKeyFromChroma` (audioUtils.ts:224-259). -/
def estimateKeyFromChroma (binPitchClass : ℚ → Int) (st : AnalyzerState) :
    Option String × Option String :=
  let binWidth := st.sampleRate / 2048
  let chroma := chromaAccum binPitchClass binWidth st.frequencyData.enum
  let sum := chroma.sum
  if sum = 0 then (none, none)
  else
    let normalizedChroma := chroma.map (fun v => v / sum)
    let best := KEY_TEMPLATES.foldl (fun best scalePair =>
      scalePair.2.foldl (fun best keyPair =>
        let score := (List.zipWith (fun c t => c * t) normalizedChroma keyPair.2).sum
        if score > best.2.2 then (some keyPair.1, some scalePair.1, score) else best)
        best)
      ((none : Option String), (none : Option String), (-1 : ℚ))
    (best.1, best.2.1)

/-- The all-default `MusicalContext` built at audioUtils.ts:263-271. -/
def defaultContext (now : Nat) : MusicalContext where
  timestamp := now
  dominantFrequencies := some []
  energy := some 0
  key := none
  scale := none
  onsets := some [false]
  beatDensity := some 0

/-- `AudioContextAnalyzer.analyzeRealTimeContext` (audioUtils.ts:262-316).
A `none` input models a null/undefined buffer.  The guard clauses return the
default context without touching any analyser state; otherwise the buffer is
routed through the analyser (whose resulting measurements are the
`frequencyData`/`floatFrequencyData` carried in `st`) and the feature
extractors run.  Total by construction: the "never throws" part of the
fail-soft contract. -/
def analyzeRealTimeContext (pow10 sqrtQ : ℚ → ℚ) (binPitchClass : ℚ → Int)
    (st : AnalyzerState) (inputBuffer : Option AudioBufferRef) (now : Nat) :
    MusicalContext × AnalyzerState :=
  match inputBuffer with
  | none => (defaultContext now, st)
  | some b =>
    if b.length = 0 then (defaultContext now, st)
    else
      let onsetRes := detectOnsetsAndDensity pow10 sqrtQ st
      let keyInfo := estimateKeyFromChroma binPitchClass st
      ({ timestamp := now,
         dominantFrequencies := some (getFrequencySpectrum st),
         energy := some (calculateEnergy st),
         key := keyInfo.1,
         scale := keyInfo.2,
         onsets := some onsetRes.1.onsets,
         beatDensity := some onsetRes.1.beatDensity }, onsetRes.2)

/-! ## ContextAwareLyriaSession (streaming buffer aggregator) -/

def maxBufferDurationSecs : ℚ := 2
def analysisIntervalMs : Nat := 500

/-- Aggregator state: the queued buffers, the running accumulated sample
count, and the wall-clock time of the last analysis kick-off. -/
structure LyriaState where
  audioBufferQueue : List AudioBufferRef
  accumulatedBufferLength : ℚ
  lastAnalysisTime : Nat
deriving DecidableEq, Repr

/-- The eviction `while` loop of `handleNewLyriaAudioBuffer`
(audioUtils.ts:351-357): while the buffered duration
(`accumulatedBufferLength / sampleRate`) exceeds the 2.0s cap and the queue
is nonempty, shift the oldest buffer and subtract its length. -/
def evictOldBuffers (sampleRate : ℚ) : List AudioBufferRef → ℚ → List AudioBufferRef × ℚ
  | [], acc => ([], acc)
  | oldest :: rest, acc =>
    if acc / sampleRate > maxBufferDurationSecs then
      evictOldBuffers sampleRate rest (acc - (oldest.length : ℚ))
    else (oldest :: rest, acc)

/-- `ContextAwareLyriaSession.handleNewLyriaAudioBuffer`
(audioUtils.ts:342-364).  Returns the updated state plus whether this call
kicked off an analysis cycle (`performAnalysis` reads but never mutates the
queue or the accumulated length, so it is summarised by the returned flag). -/
def handleNewLyriaAudioBuffer (sampleRate : ℚ) (st : LyriaState)
    (lyriaBuffer : Option AudioBufferRef) (now : Nat) : LyriaState × Bool :=
  match lyriaBuffer with
  | none => (st, false)
  | some buf =>
    if buf.length = 0 then (st, false)
    else
      let queue := st.audioBufferQueue ++ [buf]
      let acc := st.accumulatedBufferLength + (buf.length : ℚ)
      let evicted := evictOldBuffers sampleRate queue acc
      let analysisDue :=
        decide ((now : Int) - (st.lastAnalysisTime : Int) > (analysisIntervalMs : Int)) &&
        decide (0 < evicted.1.length)
      (⟨evicted.1, evicted.2, if analysisDue then now else st.lastAnalysisTime⟩, analysisDue)

/-! ## Key-compatibility structure lemmas -/

set_option linter.unreachableTactic false
set_option linter.unusedTactic false

theorem getPitchClass_lt_12 (k : Option String) (v : Nat) (h : getPitchClass k = some v) :
    v < 12 := by
  match k with
  | none => simp [getPitchClass] at h
  | some kn =>
    simp only [getPitchClass] at h
    by_cases hkn : kn = ""
    · rw [if_pos hkn] at h; exact absurd h (by simp)
    · rw [if_neg hkn] at h
      generalize (normalizeKeyChars _ : List Char) = N at h
      generalize hI1 : List.indexOf N _ = n1 at h
      generalize hI2 : List.indexOf (List.take 1 N) _ = n2 at h
      have hlen : (PITCH_CLASS_NAMES.map String.toList).length = 12 := by
        simp [PITCH_CLASS_NAMES]
      rw [hlen] at h
      split_ifs at h <;>
        first
        | (obtain rfl := Option.some.inj h; omega)
        | (obtain rfl := Option.some.inj h
           exact Nat.mod_lt _ (by norm_num [NUM_CHROMA_BINS]))
        | exact absurd h (by simp)

theorem shift_aligns (c s : Nat) (hc : c < 12) (hs : s < 12) :
    ((s : Int) + getSemitoneDifference (s : Int) (c : Int) + 12) % 12 = (c : Int) := by
  simp only [getSemitoneDifference]
  split_ifs <;> omega

theorem semitone_bounds (c s : Nat) (hc : c < 12) (hs : s < 12) :
    -6 ≤ getSemitoneDifference (s : Int) (c : Int) ∧
      getSemitoneDifference (s : Int) (c : Int) ≤ 6 := by
  simp only [getSemitoneDifference]
  split_ifs <;> omega

theorem keyCompat_resolved (ck cs sk ss : String) (c s : Nat)
    (hc : getPitchClass (some ck) = some c) (hs : getPitchClass (some sk) = some s)
    (hcs : cs ≠ "") (hss : ss ≠ "") :
    calculateKeyCompatibility (some ck) (some cs) (some sk) (some ss) =
      ⟨if lowerEq cs ss then 1 else 4/5, getSemitoneDifference (s : Int) (c : Int)⟩ := by
  have hck : ck ≠ "" := by
    intro hk; rw [hk] at hc; simp [getPitchClass] at hc
  have hsk : sk ≠ "" := by
    intro hk; rw [hk] at hs; simp [getPitchClass] at hs
  have hclt : c < 12 := getPitchClass_lt_12 _ _ hc
  have hslt : s < 12 := getPitchClass_lt_12 _ _ hs
  have halign := shift_aligns c s hclt hslt
  simp only [calculateKeyCompatibility, hc, hs]
  rw [if_neg (by simp [hck, hsk, hcs, hss])]
  simp only [Option.map_some']
  rw [if_pos halign.symm]

/-- C10: whenever both keys resolve to pitch classes and both scales are
present, `calculateKeyCompatibility` returns exactly 1.0 (scales equal
ignoring case) or exactly 0.8 (scales differ): the pitch shift, wrapped into
[-6, 6], maps the sample pitch class exactly onto the context pitch class,
so the mismatched-post-shift outcomes (0.7 / 0.5 / 0.3) are unreachable. -/
theorem keyCompat_score_dichotomy (ck cs sk ss : String) (c s : Nat)
    (hc : getPitchClass (some ck) = some c) (hs : getPitchClass (some sk) = some s)
    (hcs : cs ≠ "") (hss : ss ≠ "") :
    calculateKeyCompatibility (some ck) (some cs) (some sk) (some ss) =
      ⟨if lowerEq cs ss then 1 else 4/5, getSemitoneDifference (s : Int) (c : Int)⟩ ∧
    ((s : Int) + getSemitoneDifference (s : Int) (c : Int) + 12) % 12 = (c : Int) ∧
    -6 ≤ getSemitoneDifference (s : Int) (c : Int) ∧
    getSemitoneDifference (s : Int) (c : Int) ≤ 6 := by
  have hclt : c < 12 := getPitchClass_lt_12 _ _ hc
  have hslt : s < 12 := getPitchClass_lt_12 _ _ hs
  exact ⟨keyCompat_resolved ck cs sk ss c s hc hs hcs hss,
    shift_aligns c s hclt hslt,
    (semitone_bounds c s hclt hslt).1, (semitone_bounds c s hclt hslt).2⟩

/-- Witness for C10 at context key C Major against sample key F# Minor. -/
theorem keyCompat_score_dichotomy_witness :
    calculateKeyCompatibility (some "C") (some "Major") (some "F#") (some "Minor") =
      ⟨if lowerEq "Major" "Minor" then 1 else 4/5, getSemitoneDifference (6 : Int) (0 : Int)⟩ ∧
    ((6 : Int) + getSemitoneDifference (6 : Int) (0 : Int) + 12) % 12 = ((0 : Nat) : Int) ∧
    -6 ≤ getSemitoneDifference (6 : Int) (0 : Int) ∧
    getSemitoneDifference (6 : Int) (0 : Int) ≤ 6 :=
  keyCompat_score_dichotomy "C" "Major" "F#" "Minor" 0 6
    (by decide) (by decide) (by decide) (by decide)

/-! ## C8: transposition invariance -/

/-- The canonical name of a pitch class (spec-side formalisation of "a key",
used to state transposition). -/
def pcName (i : Nat) : String := PITCH_CLASS_NAMES.getD i ""

/-- Transposing a pitch class by `n` semitones (spec-side formalisation). -/
def transposePC (i : Nat) (n : Int) : Nat := ((((i : Int) + n) % 12).toNat)

theorem getPitchClass_pcName : ∀ i < 12, getPitchClass (some (pcName i)) = some i := by decide

theorem transposePC_lt_12 (i : Nat) (n : Int) : transposePC i n < 12 := by
  unfold transposePC; omega

/-- C8: shifting both the context key and the sample key by the same number
of semitones leaves the key-compatibility score unchanged. -/
theorem keyCompat_transposition_invariant (i j : Nat) (hi : i < 12) (hj : j < 12)
    (n : Int) (cs ss : String) (hcs : cs ≠ "") (hss : ss ≠ "") :
    (calculateKeyCompatibility (some (pcName (transposePC i n))) (some cs)
        (some (pcName (transposePC j n))) (some ss)).score =
      (calculateKeyCompatibility (some (pcName i)) (some cs)
        (some (pcName j)) (some ss)).score := by
  rw [keyCompat_resolved (pcName (transposePC i n)) cs (pcName (transposePC j n)) ss
      (transposePC i n) (transposePC j n)
      (getPitchClass_pcName _ (transposePC_lt_12 i n))
      (getPitchClass_pcName _ (transposePC_lt_12 j n)) hcs hss,
    keyCompat_resolved (pcName i) cs (pcName j) ss i j
      (getPitchClass_pcName _ hi) (getPitchClass_pcName _ hj) hcs hss]

/-- Witness for C8: transposing C-major-context/F#-minor-sample up 3
semitones. -/
theorem keyCompat_transposition_invariant_witness :
    (calculateKeyCompatibility (some (pcName (transposePC 0 3))) (some "Major")
        (some (pcName (transposePC 6 3))) (some "Minor")).score =
      (calculateKeyCompatibility (some (pcName 0)) (some "Major")
        (some (pcName 6)) (some "Minor")).score :=
  keyCompat_transposition_invariant 0 6 (by decide) (by decide) 3 "Major" "Minor"
    (by decide) (by decide)

/-! ## End-to-end scenarios (C9, C2) -/

/-- The feature snapshot of the two end-to-end scenarios:
`{energy:0.8, key:"C", scale:"Major", beatDensity:0.9}`. -/
def ctxHigh : MusicalContext :=
  ⟨1000, some (9/10), some [false], some "C", some "Major", some (4/5), some []⟩

/-- The one-shot sample of the firing scenario. -/
def sampleOneShotC : UserSample :=
  ⟨"s-one-shot", "one-shot C", ⟨some "one-shot", some "C", some "Major", some 9,
    some "dense driving percussion", some 0, none, none⟩⟩

/-- The fx sample of the non-firing scenario. -/
def sampleFxFsharp : UserSample :=
  ⟨"s-fx", "fx F sharp", ⟨some "fx", some "F#", some "Minor", some 2,
    some "sparse ambient", some 0, none, none⟩⟩

/-- A Playback Sink whose play call always resolves. -/
def playAlwaysOk : UserSample → PlaybackConfig → Except PlayError Unit :=
  fun _ _ => Except.ok ()

unseal Rat.mul Rat.inv Rat.add Rat.sub in
/-- C9: for the high-energy C-Major context and the never-fired one-shot
C-Major sample, keyScore = 1.0, energyScore = 13/15 (≈0.866),
rhythmScore = 41/50 (= 0.82), combined = 453/500 (= 0.906) > 0.7, and the
sample fires with pitch shift 0. -/
theorem oneShot_scenario_fires :
    calculateKeyCompatibility ctxHigh.key ctxHigh.scale sampleOneShotC.metadata.key
      sampleOneShotC.metadata.scale = ⟨1, 0⟩ ∧
    calculateEnergyMatch ctxHigh.energy sampleOneShotC.metadata.energyLevel = 13/15 ∧
    calculateRhythmicFit ctxHigh.beatDensity sampleOneShotC.metadata.grooveDescription = 41/50 ∧
    totalScore sampleOneShotC ctxHigh = (2/5) * 1 + (3/10) * (13/15) + (3/10) * (41/50) ∧
    totalScore sampleOneShotC ctxHigh = 453/500 ∧
    (7/10 : ℚ) < 453/500 ∧
    shouldTriggerSample sampleOneShotC ctxHigh [] 1000 = ⟨true, 0⟩ ∧
    (evaluateAndTrigger playAlwaysOk [sampleOneShotC] [] ctxHigh 1000).played =
      [(sampleOneShotC, ⟨77/100, 0⟩)] := by
  decide

unseal Rat.mul Rat.inv Rat.add Rat.sub in
/-- Counterexample to C2 as stated: the key sub-score for the C-Major
context against the F#-Minor sample is 0.8, not in the claimed 0.3-0.5
band (the −6 semitone wrap maps F# exactly onto C, leaving only the scale
mismatch penalty). -/
theorem fx_scenario_keyScore_counterexample :
    (calculateKeyCompatibility ctxHigh.key ctxHigh.scale sampleFxFsharp.metadata.key
      sampleFxFsharp.metadata.scale).score = 4/5 ∧
    ¬ ((calculateKeyCompatibility ctxHigh.key ctxHigh.scale sampleFxFsharp.metadata.key
      sampleFxFsharp.metadata.scale).score ≤ 1/2) := by
  decide

unseal Rat.mul Rat.inv Rat.add Rat.sub in
/-- C2 amended: for the high-energy C-Major context and the F#-Minor fx
sample, keyScore = 0.8 (pitch shift −6 aligns the pitch classes; scales
mismatch), energyScore = 0, rhythmScore = 9/50 (= 0.18),
combined = 187/500 (= 0.374) < 0.7, and the sample does not fire. -/
theorem fx_scenario_does_not_fire :
    calculateKeyCompatibility ctxHigh.key ctxHigh.scale sampleFxFsharp.metadata.key
      sampleFxFsharp.metadata.scale = ⟨4/5, -6⟩ ∧
    calculateEnergyMatch ctxHigh.energy sampleFxFsharp.metadata.energyLevel = 0 ∧
    calculateRhythmicFit ctxHigh.beatDensity sampleFxFsharp.metadata.grooveDescription = 9/50 ∧
    totalScore sampleFxFsharp ctxHigh = 187/500 ∧
    (187/500 : ℚ) < 7/10 ∧
    shouldTriggerSample sampleFxFsharp ctxHigh [] 1000 = ⟨false, -6⟩ ∧
    (evaluateAndTrigger playAlwaysOk [sampleFxFsharp] [] ctxHigh 1000).played = [] := by
  decide

/-! ## C4: degenerate analyzer input -/

/-- C4: for a null (`none`) or zero-length input buffer,
`analyzeRealTimeContext` returns the all-default snapshot — energy 0,
beatDensity 0, onsets [false], key/scale undefined, dominantFrequencies
empty — leaves the analyser state untouched, and (being a total function)
never throws. -/
theorem analyze_degenerate_buffer (pow10 sqrtQ : ℚ → ℚ) (binPitchClass : ℚ → Int)
    (st : AnalyzerState) (buf : Option AudioBufferRef) (now : Nat)
    (h : buf = none ∨ ∃ b, buf = some b ∧ b.length = 0) :
    analyzeRealTimeContext pow10 sqrtQ binPitchClass st buf now = (defaultContext now, st) ∧
    (analyzeRealTimeContext pow10 sqrtQ binPitchClass st buf now).1.energy = some 0 ∧
    (analyzeRealTimeContext pow10 sqrtQ binPitchClass st buf now).1.beatDensity = some 0 ∧
    (analyzeRealTimeContext pow10 sqrtQ binPitchClass st buf now).1.onsets = some [false] ∧
    (analyzeRealTimeContext pow10 sqrtQ binPitchClass st buf now).1.key = none ∧
    (analyzeRealTimeContext pow10 sqrtQ binPitchClass st buf now).1.scale = none ∧
    (analyzeRealTimeContext pow10 sqrtQ binPitchClass st buf now).1.dominantFrequencies =
      some [] := by
  have heq : analyzeRealTimeContext pow10 sqrtQ binPitchClass st buf now =
      (defaultContext now, st) := by
    rcases h with rfl | ⟨b, rfl, hb⟩
    · rfl
    · simp [analyzeRealTimeContext, hb]
  refine ⟨heq, ?_, ?_, ?_, ?_, ?_, ?_⟩ <;> rw [heq] <;> rfl

/-- Witness for C4 at a null buffer and a fresh analyser. -/
theorem analyze_degenerate_buffer_witness :
    analyzeRealTimeContext (fun _ => 1) (fun _ => 0) (fun _ => 0)
      ⟨44100, [], [], [], []⟩ none 0 = (defaultContext 0, ⟨44100, [], [], [], []⟩) ∧
    (analyzeRealTimeContext (fun _ => 1) (fun _ => 0) (fun _ => 0)
      ⟨44100, [], [], [], []⟩ none 0).1.energy = some 0 ∧
    (analyzeRealTimeContext (fun _ => 1) (fun _ => 0) (fun _ => 0)
      ⟨44100, [], [], [], []⟩ none 0).1.beatDensity = some 0 ∧
    (analyzeRealTimeContext (fun _ => 1) (fun _ => 0) (fun _ => 0)
      ⟨44100, [], [], [], []⟩ none 0).1.onsets = some [false] ∧
    (analyzeRealTimeContext (fun _ => 1) (fun _ => 0) (fun _ => 0)
      ⟨44100, [], [], [], []⟩ none 0).1.key = none ∧
    (analyzeRealTimeContext (fun _ => 1) (fun _ => 0) (fun _ => 0)
      ⟨44100, [], [], [], []⟩ none 0).1.scale = none ∧
    (analyzeRealTimeContext (fun _ => 1) (fun _ => 0) (fun _ => 0)
      ⟨44100, [], [], [], []⟩ none 0).1.dominantFrequencies = some [] :=
  analyze_degenerate_buffer (fun _ => 1) (fun _ => 0) (fun _ => 0)
    ⟨44100, [], [], [], []⟩ none 0 (Or.inl rfl)

/-! ## Trigger-loop membership lemmas -/

theorem mem_runFirings_played (play : UserSample → PlaybackConfig → Except PlayError Unit)
    (ctx : MusicalContext) (now : Nat) :
    ∀ (l : List (UserSample × Int)) (m : List (String × Nat)) (s : UserSample)
      (cfg : PlaybackConfig),
      (s, cfg) ∈ (runFirings play ctx now l m).played → ∃ ps, (s, ps) ∈ l := by
  intro l
  induction l with
  | nil => intro m s cfg h; simp [runFirings] at h
  | cons hd tl ih =>
    intro m s cfg h
    obtain ⟨sample, pitchShift⟩ := hd
    simp only [runFirings] at h
    split at h
    · simp at h
    · simp only [List.mem_cons] at h
      rcases h with h | h
      · obtain ⟨rfl, rfl⟩ := Prod.mk.inj h
        exact ⟨pitchShift, by simp⟩
      · obtain ⟨ps, hps⟩ := ih _ s cfg h
        exact ⟨ps, List.mem_cons_of_mem _ hps⟩

theorem mem_collectEligible (samples : List UserSample) (ctx : MusicalContext)
    (m : List (String × Nat)) (now : Nat) (s : UserSample) (ps : Int)
    (h : (s, ps) ∈ collectEligible samples ctx m now) :
    s ∈ samples ∧ (shouldTriggerSample s ctx m now).trigger = true ∧
      ps = (shouldTriggerSample s ctx m now).pitchShift := by
  simp only [collectEligible, List.mem_filterMap] at h
  obtain ⟨a, ha, hif⟩ := h
  by_cases ht : (shouldTriggerSample a ctx m now).trigger
  · rw [if_pos ht] at hif
    obtain ⟨rfl, rfl⟩ := Prod.mk.inj (Option.some.inj hif)
    exact ⟨ha, ht, rfl⟩
  · rw [if_neg ht] at hif
    exact absurd hif (by simp)

/-! ## C5: sample-type eligibility filter -/

/-- C5: a sample whose type is not exactly "one-shot" or "fx" is never
triggered: its decision is always `{trigger := false, pitchShift := 0}`
and it never appears among the samples played by `evaluateAndTrigger`,
regardless of its score or rate-limit state. -/
theorem non_oneShot_fx_never_fires (sample : UserSample)
    (h1 : sample.metadata.sampleType ≠ some "one-shot")
    (h2 : sample.metadata.sampleType ≠ some "fx") :
    (∀ context m now, shouldTriggerSample sample context m now = ⟨false, 0⟩) ∧
    (∀ play samples m context now cfg,
      (sample, cfg) ∉ (evaluateAndTrigger play samples m context now).played) := by
  have hdec : ∀ context m now, shouldTriggerSample sample context m now = ⟨false, 0⟩ := by
    intro context m now
    simp only [shouldTriggerSample]
    rw [if_pos ⟨h1, h2⟩]
  refine ⟨hdec, ?_⟩
  intro play samples m context now cfg hmem
  obtain ⟨ps, hps⟩ := mem_runFirings_played play context now _ m sample cfg hmem
  have := (mem_collectEligible samples context m now sample ps hps).2.1
  rw [hdec context m now] at this
  simp at this

/-- A loop sample with a perfect-score profile, for the C5 witness. -/
def sampleLoopC : UserSample :=
  ⟨"s-loop", "loop C", ⟨some "loop", some "C", some "Major", some 9,
    some "dense driving percussion", some 0, none, none⟩⟩

/-- Witness for C5: the high-scoring loop sample still never fires. -/
theorem non_oneShot_fx_never_fires_witness :
    shouldTriggerSample sampleLoopC ctxHigh [] 1000 = ⟨false, 0⟩ :=
  (non_oneShot_fx_never_fires sampleLoopC (by decide) (by decide)).1 ctxHigh [] 1000

/-! ## C3: per-sample rate limiting -/

theorem runFirings_alwaysOk_played (ctx : MusicalContext) (now : Nat) :
    ∀ (l : List (UserSample × Int)) (m : List (String × Nat)),
      (runFirings playAlwaysOk ctx now l m).played =
        l.map (fun p => (p.1, calculatePlaybackConfig p.1 ctx p.2)) := by
  intro l
  induction l with
  | nil => intro m; rfl
  | cons hd tl ih =>
    intro m
    obtain ⟨s, ps⟩ := hd
    simp [runFirings, playAlwaysOk, ih]

theorem collectEligible_mem_of (samples : List UserSample) (ctx : MusicalContext)
    (m : List (String × Nat)) (now : Nat) (s : UserSample)
    (hs : s ∈ samples) (ht : (shouldTriggerSample s ctx m now).trigger = true) :
    (s, (shouldTriggerSample s ctx m now).pitchShift) ∈ collectEligible samples ctx m now := by
  simp only [collectEligible, List.mem_filterMap]
  exact ⟨s, hs, by rw [if_pos ht]⟩

/-- C3: for a sample whose last recorded firing is at time `T` and whose
effective minimum interval is the default 3000ms, no evaluation with
decision time before `T+3000` triggers or plays it; any evaluation at
`T+3000` or later with an eligible sample type and combined score above 0.7
triggers it, and (with a resolving Playback Sink) plays it. -/
theorem rate_limited_firing (sample : UserSample) (context : MusicalContext)
    (m : List (String × Nat)) (now T : Nat)
    (hT : mapGet sample.id m = some T)
    (hmin : sample.metadata.minimumIntervalMs.getD 3000 = 3000) :
    (now < T + 3000 →
      (shouldTriggerSample sample context m now).trigger = false ∧
      ∀ play samples cfg,
        (sample, cfg) ∉ (evaluateAndTrigger play samples m context now).played) ∧
    (T + 3000 ≤ now →
      (sample.metadata.sampleType = some "one-shot" ∨ sample.metadata.sampleType = some "fx") →
      7/10 < totalScore sample context →
      (shouldTriggerSample sample context m now).trigger = true ∧
      ∀ samples, sample ∈ samples →
        (sample, calculatePlaybackConfig sample context
            (shouldTriggerSample sample context m now).pitchShift) ∈
          (evaluateAndTrigger playAlwaysOk samples m context now).played) := by
  constructor
  · intro hlt
    have hfalse : (shouldTriggerSample sample context m now).trigger = false := by
      simp only [shouldTriggerSample, hT, hmin, Option.getD_some]
      split
      · rfl
      · rw [if_pos (by omega)]
    refine ⟨hfalse, ?_⟩
    intro play samples cfg hmem
    obtain ⟨ps, hps⟩ := mem_runFirings_played play context now _ m sample cfg hmem
    have := (mem_collectEligible samples context m now sample ps hps).2.1
    rw [hfalse] at this
    exact Bool.false_ne_true this
  · intro hge htype hscore
    have htrig : (shouldTriggerSample sample context m now).trigger = true := by
      simp only [shouldTriggerSample, hT, hmin, Option.getD_some]
      rw [if_neg (by rcases htype with h | h <;> simp [h]), if_neg (by omega)]
      exact decide_eq_true hscore
    refine ⟨htrig, ?_⟩
    intro samples hs
    have hmem := collectEligible_mem_of samples context m now sample hs htrig
    rw [evaluateAndTrigger, runFirings_alwaysOk_played]
    exact List.mem_map_of_mem _ hmem

/-- A one-shot sample with no explicit `minimumIntervalMs` (so the 3000ms
default applies), for the C3 witness. -/
def sampleOneShotDefaultInterval : UserSample :=
  ⟨"s3", "one-shot default interval", ⟨some "one-shot", some "C", some "Major", some 9,
    some "dense driving percussion", none, none, none⟩⟩

unseal Rat.mul Rat.inv Rat.add Rat.sub in
/-- Witness for C3: last fired at T = 10000; blocked at 12999, fires at
13000. -/
theorem rate_limited_firing_witness :
    (shouldTriggerSample sampleOneShotDefaultInterval ctxHigh
      [("s3", 10000)] 12999).trigger = false ∧
    (shouldTriggerSample sampleOneShotDefaultInterval ctxHigh
      [("s3", 10000)] 13000).trigger = true :=
  ⟨((rate_limited_firing sampleOneShotDefaultInterval ctxHigh [("s3", 10000)] 12999 10000
      (by decide) (by decide)).1 (by omega)).1,
   ((rate_limited_firing sampleOneShotDefaultInterval ctxHigh [("s3", 10000)] 13000 10000
      (by decide) (by decide)).2 (by omega) (Or.inl rfl) (by decide)).1⟩

/-! ## C1: play failure during a trigger cycle -/

/-- First of two simultaneously firing one-shot samples. -/
def sampleOne1 : UserSample :=
  ⟨"s1", "one-shot 1", ⟨some "one-shot", some "C", some "Major", some 9,
    some "dense driving percussion", some 0, none, none⟩⟩

/-- Second of two simultaneously firing one-shot samples. -/
def sampleOne2 : UserSample :=
  ⟨"s2", "one-shot 2", ⟨some "one-shot", some "C", some "Major", some 9,
    some "dense driving percussion", some 0, none, none⟩⟩

/-- A Playback Sink whose play call rejects exactly for sample id "s1". -/
def playFailS1 : UserSample → PlaybackConfig → Except PlayError Unit :=
  fun s _ => if s.id = "s1" then Except.error PlayError.fail else Except.ok ()

unseal Rat.mul Rat.inv Rat.add Rat.sub in
/-- Counterexample to C1 as stated: both samples clear the 0.7 threshold in
the same cycle, the play call for the first rejects, and the cycle ends with
the error propagated, nothing played (the second sample is not played), and
no last-fired timestamp recorded for the failing sample. -/
theorem play_failure_counterexample :
    (shouldTriggerSample sampleOne1 ctxHigh [] 1000).trigger = true ∧
    (shouldTriggerSample sampleOne2 ctxHigh [] 1000).trigger = true ∧
    evaluateAndTrigger playFailS1 [sampleOne1, sampleOne2] [] ctxHigh 1000 =
      ⟨[], [], some PlayError.fail⟩ ∧
    mapGet "s1" (evaluateAndTrigger playFailS1 [sampleOne1, sampleOne2] []
      ctxHigh 1000).lastTriggerTimes = none := by
  decide

/-- C1 amended: `evaluateAndTrigger` does not catch a rejecting play call.
If the fired list is `pre ++ (badS, badPs) :: post` and the play call
resolves on `pre` but rejects on `badS`, then exactly the `pre` samples are
played and time-stamped, the rejection propagates, the failing sample's
last-fired timestamp is not recorded, and the `post` samples that cleared
the threshold in the same cycle are not played.  (Decode failures are caught
inside `playSample` itself and resolve normally — see `playSample` — so only
a genuine rejection of the play promise reaches this path.) -/
theorem play_failure_aborts_cycle
    (play : UserSample → PlaybackConfig → Except PlayError Unit)
    (samples : List UserSample) (m : List (String × Nat)) (context : MusicalContext)
    (now : Nat) (e : PlayError) (pre : List (UserSample × Int))
    (badS : UserSample) (badPs : Int) (post : List (UserSample × Int))
    (helig : collectEligible samples context m now = pre ++ (badS, badPs) :: post)
    (hpre : ∀ p ∈ pre, play p.1 (calculatePlaybackConfig p.1 context p.2) = Except.ok ())
    (hbad : play badS (calculatePlaybackConfig badS context badPs) = Except.error e) :
    evaluateAndTrigger play samples m context now =
      ⟨pre.map (fun p => (p.1, calculatePlaybackConfig p.1 context p.2)),
       pre.foldl (fun acc p => mapSet p.1.id now acc) m,
       some e⟩ := by
  rw [evaluateAndTrigger, helig]
  clear helig
  revert hpre
  induction pre generalizing m with
  | nil =>
    intro _
    simp only [List.nil_append, List.map_nil, List.foldl_nil, runFirings, hbad]
  | cons hd tl ih =>
    intro hpre
    obtain ⟨s, ps⟩ := hd
    have hok := hpre (s, ps) (List.mem_cons_self _ _)
    simp only [List.cons_append, runFirings, hok, List.map_cons, List.foldl_cons,
      List.append_eq]
    rw [ih (mapSet s.id now m) (fun p hp => hpre p (List.mem_cons_of_mem _ hp))]

unseal Rat.mul Rat.inv Rat.add Rat.sub in
/-- Witness for the amended C1: the concrete two-sample cycle with the play
call rejecting on the first fired sample. -/
theorem play_failure_aborts_cycle_witness :
    evaluateAndTrigger playFailS1 [sampleOne1, sampleOne2] [] ctxHigh 1000 =
      ⟨[], [], some PlayError.fail⟩ :=
  play_failure_aborts_cycle playFailS1 [sampleOne1, sampleOne2] [] ctxHigh 1000
    PlayError.fail [] sampleOne1 0 [(sampleOne2, 0)]
    (by decide) (by simp) rfl

/-! ## C6: aggregator sliding window -/

/-- Total sample length of a buffer queue (the quantity
`accumulatedBufferLength` is meant to track). -/
def sumLen (q : List AudioBufferRef) : ℚ := (q.map (fun b => (b.length : ℚ))).sum

theorem evictOldBuffers_sum (sr : ℚ) :
    ∀ (q : List AudioBufferRef) (acc : ℚ), acc = sumLen q →
      (evictOldBuffers sr q acc).2 = sumLen (evictOldBuffers sr q acc).1 := by
  intro q
  induction q with
  | nil => intro acc h; simpa [evictOldBuffers, sumLen] using h
  | cons b rest ih =>
    intro acc h
    simp only [evictOldBuffers]
    split
    · refine ih _ ?_
      simp only [sumLen, List.map_cons, List.sum_cons] at h
      simp only [sumLen]
      linarith
    · simpa [sumLen] using h

theorem evictOldBuffers_cap (sr : ℚ) :
    ∀ (q : List AudioBufferRef) (acc : ℚ), acc = sumLen q →
      (evictOldBuffers sr q acc).2 / sr ≤ maxBufferDurationSecs := by
  intro q
  induction q with
  | nil =>
    intro acc h
    simp only [sumLen, List.map_nil, List.sum_nil] at h
    subst h
    simp only [evictOldBuffers, maxBufferDurationSecs]
    rw [zero_div]
    norm_num
  | cons b rest ih =>
    intro acc h
    simp only [evictOldBuffers]
    split
    · refine ih _ ?_
      simp only [sumLen, List.map_cons, List.sum_cons] at h
      simp only [sumLen]
      linarith
    · rename_i hc
      exact le_of_not_lt hc

theorem evictOldBuffers_suffix (sr : ℚ) :
    ∀ (q : List AudioBufferRef) (acc : ℚ),
      List.IsSuffix (evictOldBuffers sr q acc).1 q := by
  intro q
  induction q with
  | nil => intro acc; simp [evictOldBuffers]
  | cons b rest ih =>
    intro acc
    simp only [evictOldBuffers]
    split
    · exact (ih _).trans (List.suffix_cons b rest)
    · exact List.suffix_refl _

/-- C6: after any `handleNewLyriaAudioBuffer` call on a state satisfying the
bookkeeping invariant and the 2.0s cap, the accumulated-length counter still
equals the sum of the lengths of the queued buffers (no drift), the queued
duration is at most 2.0 seconds, and the resulting queue is a suffix of the
old queue plus the accepted buffer — i.e. any eviction removed buffers
oldest-first from the front. -/
theorem aggregator_sliding_window (sr : ℚ) (st : LyriaState)
    (buf : Option AudioBufferRef) (now : Nat)
    (hinv : st.accumulatedBufferLength = sumLen st.audioBufferQueue)
    (hcap : st.accumulatedBufferLength / sr ≤ maxBufferDurationSecs) :
    ((handleNewLyriaAudioBuffer sr st buf now).1.accumulatedBufferLength =
      sumLen (handleNewLyriaAudioBuffer sr st buf now).1.audioBufferQueue) ∧
    ((handleNewLyriaAudioBuffer sr st buf now).1.accumulatedBufferLength / sr ≤
      maxBufferDurationSecs) ∧
    List.IsSuffix (handleNewLyriaAudioBuffer sr st buf now).1.audioBufferQueue
      (st.audioBufferQueue ++ (match buf with
        | none => []
        | some b => if b.length = 0 then [] else [b])) := by
  match buf with
  | none =>
    exact ⟨hinv, hcap, by simp [handleNewLyriaAudioBuffer]⟩
  | some b =>
    by_cases hb : b.length = 0
    · refine ⟨?_, ?_, ?_⟩ <;> simp only [handleNewLyriaAudioBuffer, hb, if_pos rfl]
      · exact hinv
      · exact hcap
      · simp
    · have hinv' : st.accumulatedBufferLength + (b.length : ℚ) =
          sumLen (st.audioBufferQueue ++ [b]) := by
        simp [sumLen, hinv]
      refine ⟨?_, ?_, ?_⟩ <;>
        simp only [handleNewLyriaAudioBuffer, hb, if_neg hb, ite_false]
      · exact evictOldBuffers_sum sr _ _ hinv'
      · exact evictOldBuffers_cap sr _ _ hinv'
      · exact evictOldBuffers_suffix sr _ _

unseal Rat.mul Rat.inv Rat.add Rat.sub in
/-- Witness for C6: at 10 samples/second, a queue holding 1.5s receives a
1.0s buffer; the oldest buffer is evicted and the invariants hold. -/
theorem aggregator_sliding_window_witness :
    ((handleNewLyriaAudioBuffer 10 ⟨[⟨15, 1, 10⟩], 15, 0⟩ (some ⟨10, 1, 10⟩)
        1000).1.accumulatedBufferLength =
      sumLen (handleNewLyriaAudioBuffer 10 ⟨[⟨15, 1, 10⟩], 15, 0⟩ (some ⟨10, 1, 10⟩)
        1000).1.audioBufferQueue) ∧
    ((handleNewLyriaAudioBuffer 10 ⟨[⟨15, 1, 10⟩], 15, 0⟩ (some ⟨10, 1, 10⟩)
        1000).1.accumulatedBufferLength / 10 ≤ maxBufferDurationSecs) ∧
    List.IsSuffix (handleNewLyriaAudioBuffer 10 ⟨[⟨15, 1, 10⟩], 15, 0⟩ (some ⟨10, 1, 10⟩)
        1000).1.audioBufferQueue
      ([⟨15, 1, 10⟩] ++ (match (some ⟨10, 1, 10⟩ : Option AudioBufferRef) with
        | none => []
        | some b => if b.length = 0 then [] else [b])) :=
  aggregator_sliding_window 10 ⟨[⟨15, 1, 10⟩], 15, 0⟩ (some ⟨10, 1, 10⟩) 1000
    (by norm_num [sumLen]) (by norm_num [maxBufferDurationSecs])

/-! ## C7: energy and beat-density ranges -/

theorem spectralFluxOf_nonneg : ∀ (cur prev : List ℚ), 0 ≤ spectralFluxOf cur prev := by
  intro cur
  induction cur with
  | nil => intro prev; simp [spectralFluxOf]
  | cons c cs ih =>
    intro prev
    cases prev with
    | nil => simp [spectralFluxOf]
    | cons p ps =>
      simp only [spectralFluxOf, List.zipWith_cons_cons, List.sum_cons]
      have h1 : (0:ℚ) ≤ if c - p > 0 then c - p else 0 := by
        split
        · linarith
        · exact le_refl 0
      have h2 := ih ps
      simp only [spectralFluxOf] at h2
      linarith

theorem spectralFluxOf_eq_zero : ∀ (cur prev : List ℚ),
    (∀ c ∈ cur, c = 0) → (∀ p ∈ prev, 0 ≤ p) → spectralFluxOf cur prev = 0 := by
  intro cur
  induction cur with
  | nil => intro prev _ _; simp [spectralFluxOf]
  | cons c cs ih =>
    intro prev hc hp
    cases prev with
    | nil => simp [spectralFluxOf]
    | cons p ps =>
      simp only [spectralFluxOf, List.zipWith_cons_cons, List.sum_cons]
      have hc0 : c = 0 := hc c (by simp)
      have hp0 : 0 ≤ p := hp p (by simp)
      have hrest := ih ps (fun x hx => hc x (by simp [hx])) (fun x hx => hp x (by simp [hx]))
      simp only [spectralFluxOf] at hrest
      rw [hrest, hc0]
      have hneg : ¬ ((0:ℚ) - p > 0) := by linarith
      rw [if_neg hneg]
      norm_num

/-- C7: for every spectrum measurement, the computed energy and beat
density lie in [0,1], and the all-zero spectrum (all byte magnitudes 0; all
dB values below the -100 floor) yields 0 for both.  The nonempty-bins
hypothesis `hlen` marks the domain on which the JS code is NaN-free (the
analyser always reports 1024 bins); `hprev` is the invariant that the stored
previous spectrum consists of the nonnegative linear magnitudes of the
previous call. -/
theorem energy_density_bounds (pow10 sqrtQ : ℚ → ℚ) (st : AnalyzerState)
    (hlen : st.frequencyData ≠ [])
    (hprev : ∀ p ∈ st.prevSpectrum, 0 ≤ p) :
    (0 ≤ calculateEnergy st ∧ calculateEnergy st ≤ 1) ∧
    (0 ≤ (detectOnsetsAndDensity pow10 sqrtQ st).1.beatDensity ∧
      (detectOnsetsAndDensity pow10 sqrtQ st).1.beatDensity ≤ 1) ∧
    ((∀ b ∈ st.frequencyData, b = 0) → calculateEnergy st = 0) ∧
    ((∀ v ∈ st.floatFrequencyData, v < -100) →
      (detectOnsetsAndDensity pow10 sqrtQ st).1.beatDensity = 0) := by
  refine ⟨⟨?_, ?_⟩, ⟨?_, ?_⟩, ?_, ?_⟩
  · simp only [calculateEnergy]
    refine le_min (div_nonneg (div_nonneg ?_ ?_) (by norm_num)) (by norm_num)
    · refine List.sum_nonneg (fun x hx => ?_)
      rw [List.mem_map] at hx
      obtain ⟨b, hb, hxb⟩ := hx
      rw [← hxb]
      positivity
    · exact Nat.cast_nonneg _
  · simp only [calculateEnergy]
    exact min_le_right _ _
  · simp only [detectOnsetsAndDensity]
    split <;> split <;> dsimp only <;>
      first
        | norm_num
        | exact le_min (by norm_num) (le_max_left _ _)
  · simp only [detectOnsetsAndDensity]
    split <;> split <;> dsimp only <;>
      first
        | norm_num
        | exact min_le_left _ _
  · intro hz
    simp only [calculateEnergy]
    have hsum : (st.frequencyData.map (fun b : Nat => (b : ℚ))).sum = 0 := by
      apply List.sum_eq_zero
      intro x hx
      rw [List.mem_map] at hx
      obtain ⟨b, hb, hxb⟩ := hx
      rw [← hxb, hz b hb]
      norm_num
    rw [hsum, zero_div, zero_div]
    exact min_eq_left (by norm_num)
  · intro hz
    have hflux : spectralFluxOf (List.map (dbToLinear pow10) st.floatFrequencyData)
        st.prevSpectrum = 0 := by
      apply spectralFluxOf_eq_zero
      · intro c hc
        obtain ⟨v, hv, rfl⟩ := List.mem_map.mp hc
        simp [dbToLinear, hz v hv]
      · exact hprev
    simp only [detectOnsetsAndDensity, hflux]
    split <;> split <;> dsimp only <;>
      first
        | rfl
        | (rw [max_eq_left, min_eq_right]
           · norm_num
           · split
             · exact le_refl 0
             · rw [zero_div]; norm_num)

/-- Witness for C7 at a one-bin all-zero measurement with a fresh flux
state. -/
theorem energy_density_bounds_witness :
    (0 ≤ calculateEnergy ⟨44100, [0], [-1000], [], []⟩ ∧
      calculateEnergy ⟨44100, [0], [-1000], [], []⟩ ≤ 1) ∧
    (0 ≤ (detectOnsetsAndDensity (fun _ => 1) (fun _ => 0)
        ⟨44100, [0], [-1000], [], []⟩).1.beatDensity ∧
      (detectOnsetsAndDensity (fun _ => 1) (fun _ => 0)
        ⟨44100, [0], [-1000], [], []⟩).1.beatDensity ≤ 1) ∧
    ((∀ b ∈ ([0] : List Nat), b = 0) →
      calculateEnergy ⟨44100, [0], [-1000], [], []⟩ = 0) ∧
    ((∀ v ∈ ([-1000] : List ℚ), v < -100) →
      (detectOnsetsAndDensity (fun _ => 1) (fun _ => 0)
        ⟨44100, [0], [-1000], [], []⟩).1.beatDensity = 0) :=
  energy_density_bounds (fun _ => 1) (fun _ => 0) ⟨44100, [0], [-1000], [], []⟩
    (by simp) (by simp)
